import Mathlib

/-!
Shallow embedding of `src/server.js` of the poem-clock service.

The service keeps an in-memory `currentPoem` slot (the poem being served),
a speculative `nextPoem` slot (prefetched for the upcoming minute), and an
append-only SQLite table `poems`.  A 1 Hz timer prefetches at wall-clock
second 45, promotes or regenerates at second 0 of a new minute, and prunes
old rows at the top of each hour.

Modelling conventions:
- Machine numbers are `Int`/`Nat` (JS numbers here are integral: epoch
  milliseconds, minute values, row counts).
- The external OpenRouter call is an oracle value of type `APIResult`
  supplied to each generation; the `try`/`catch` in
  `generatePoemFromAPI` makes the function total.
- SQLite writes are best-effort (`try`/`catch`): each write takes a
  success flag; on failure the table is unchanged.
- The fire-and-forget prefetch at second 45 is modelled as taking effect
  within the tick (the seconds-45 branch and the seconds-0 branch of the
  same tick are mutually exclusive, so this does not reorder observable
  effects relative to the boundary logic).
-/

namespace PoemClock

/-- Default model identifier (`OPENROUTER_MODEL` with no env override);
the claims never depend on its value. -/
def OPENROUTER_MODEL : String := "anthropic/claude-3.5-sonnet"

/-- Outcome of one `fetch` to the completion API, as observed by
`generatePoemFromAPI`: the promise rejects, or a non-2xx status, or a 2xx
response whose extracted `choices[0].message.content` is `content`
(`none` when the optional chain produced `undefined`). -/
inductive APIResult where
  | fetchError
  | httpError (status : Nat)
  | success (content : Option String)
deriving DecidableEq, Repr

/-- JavaScript whitespace characters recognised by `String.prototype.trim`
(the common subset; enough for the claims about whitespace-only content). -/
def isJSWhitespace (c : Char) : Bool :=
  c = ' ' || c = '\t' || c = '\n' || c = '\x0d' || c = '\x0b' || c = '\x0c'

/-- `String.prototype.trim`: strip leading and trailing whitespace. -/
def jsTrim (s : String) : String :=
  ⟨((s.data.dropWhile isJSWhitespace).reverse.dropWhile isJSWhitespace).reverse⟩

/-- The static fallback poem of `generatePoemFromAPI`'s `catch` block:
`At ${timeString} the clock does chime,\nMarking moments, keeping time.` -/
def fallbackPoem (timeString : String) : String :=
  "At " ++ timeString ++ " the clock does chime,\nMarking moments, keeping time."

/-- `generatePoemFromAPI(timeString)` (src/server.js lines 197-249).
A rejected fetch or a non-ok response throws inside the `try`; a 2xx
response extracts `data.choices?.[0]?.message?.content || ''` and throws
when that is the empty string; every throw is caught and the fallback
returned.  Otherwise the content is returned trimmed. -/
def generatePoemFromAPI (api : APIResult) (timeString : String) : String :=
  match api with
  | .fetchError => fallbackPoem timeString
  | .httpError _ => fallbackPoem timeString
  | .success content =>
      let poem := content.getD ""
      if poem = "" then fallbackPoem timeString
      else jsTrim poem

/-- A wall-clock instant as the scheduler reads it from a JS `Date`:
epoch milliseconds plus the local broken-down fields it actually uses. -/
structure JSDate where
  epochMs : Int
  hours : Nat
  minutes : Nat
  seconds : Nat
  msOfSec : Nat
deriving DecidableEq, Repr

/-- Zero-padding of `toLocaleTimeString` with `2-digit` fields. -/
def pad2 (n : Nat) : String :=
  if n < 10 then "0" ++ toString n else toString n

/-- `formatTime(date)` (src/server.js lines 188-194): 12-hour en-US
rendering such as `10:33 AM`. -/
def formatTime (d : JSDate) : String :=
  let h12 := if d.hours % 12 = 0 then 12 else d.hours % 12
  pad2 h12 ++ ":" ++ pad2 d.minutes ++ " " ++ (if d.hours < 12 then "AM" else "PM")

/-- `new Date(now)` followed by `setMinutes(getMinutes()+1)`,
`setSeconds(0)`, `setMilliseconds(0)` (src/server.js lines 301-304):
the start of the next minute. -/
def nextMinuteOf (d : JSDate) : JSDate :=
  { epochMs := d.epochMs + 60000 - (d.seconds : Int) * 1000 - (d.msOfSec : Int)
    hours := (d.hours + (d.minutes + 1) / 60) % 24
    minutes := (d.minutes + 1) % 60
    seconds := 0
    msOfSec := 0 }

/-- One row of the `poems` table (surrogate `id` and `created_at`
omitted: no claim mentions them). -/
structure PoemRecord where
  timestamp : Int
  time_string : String
  poem : String
  model_used : String
deriving DecidableEq, Repr

/-- The `currentPoem` module-level slot. -/
structure CurrentSlot where
  timeString : String
  poem : String
  timestamp : Int
  minute : Int
deriving DecidableEq, Repr

/-- The `nextPoem` module-level slot.  The empty state in the source is
`{ poem: '', minute: -1 }`; the absent `timeString`/`timestamp` fields are
modelled as `""`/`0` (they are never read while `poem` is empty, because
the promotion guard requires non-empty `poem`). -/
structure NextSlot where
  poem : String
  minute : Int
  timeString : String
  timestamp : Int
deriving DecidableEq, Repr

/-- The mutable state the scheduler touches: both cache slots and the
`poems` table. -/
structure ServerState where
  currentPoem : CurrentSlot
  nextPoem : NextSlot
  poems : List PoemRecord
deriving DecidableEq, Repr

/-- `savePoemToDatabase(timeString, poem, timestamp)` (src/server.js
lines 252-259): `INSERT INTO poems` inside `try`/`catch`; on failure the
error is logged and the table is unchanged.  The function returns
nothing and never throws to its caller. -/
def savePoemToDatabase (writeOk : Bool) (timeString poem : String) (timestamp : Int)
    (store : List PoemRecord) : List PoemRecord :=
  if writeOk then
    store ++ [{ timestamp := timestamp, time_string := timeString,
                poem := poem, model_used := OPENROUTER_MODEL }]
  else store

/-- Result of `cleanupOldPoems()`: the table afterwards, the
`result.changes` row count of the `DELETE` statement (0 when the
statement threw), and the JS return value of the function — which has no
`return` statement, hence `undefined`, modelled as `none`. -/
structure CleanupResult where
  store : List PoemRecord
  changes : Nat
  ret : Option Nat
deriving DecidableEq, Repr

/-- `cleanupOldPoems()` (src/server.js lines 262-274):
`DELETE FROM poems WHERE timestamp < now - POEM_RETENTION_HOURS*60*60*1000`
inside `try`/`catch`.  The retention window is the module-level
configured integer `POEM_RETENTION_HOURS`, here a parameter as all
globals are; `nowMs` is `Date.now()` at the call. -/
def cleanupOldPoems (pruneOk : Bool) (retentionHours nowMs : Int)
    (store : List PoemRecord) : CleanupResult :=
  let cutoffTimestamp := nowMs - retentionHours * 60 * 60 * 1000
  if pruneOk then
    { store := store.filter (fun r => !decide (r.timestamp < cutoffTimestamp))
      changes := (store.filter (fun r => decide (r.timestamp < cutoffTimestamp))).length
      ret := none }
  else
    { store := store, changes := 0, ret := none }

/-- `generateAndCachePoem(date)` (src/server.js lines 277-296): format
the label, call the generator, overwrite `currentPoem`, and append to the
database best-effort. -/
def generateAndCachePoem (api : APIResult) (writeOk : Bool) (date : JSDate)
    (s : ServerState) : ServerState :=
  let timeString := formatTime date
  let minute := date.minutes
  let timestamp := date.epochMs
  let poem := generatePoemFromAPI api timeString
  { s with
    currentPoem := { timeString := timeString, poem := poem,
                     timestamp := timestamp, minute := (minute : Int) }
    poems := savePoemToDatabase writeOk timeString poem timestamp s.poems }

/-- `prefetchNextMinute()` (src/server.js lines 299-323).  Returns the
new `nextPoem` slot and whether an external generation call was made:
the call is skipped when `nextPoem.minute` already equals the target
minute value. -/
def prefetchNextMinute (api : APIResult) (now : JSDate) (next : NextSlot) :
    NextSlot × Bool :=
  let nextMinute := nextMinuteOf now
  let nextMinuteValue := nextMinute.minutes
  if next.minute ≠ (nextMinuteValue : Int) then
    let timeString := formatTime nextMinute
    let poem := generatePoemFromAPI api timeString
    ({ poem := poem, minute := (nextMinuteValue : Int),
       timeString := timeString, timestamp := nextMinute.epochMs }, true)
  else (next, false)

/-- The oracle inputs of one scheduler tick: the API outcome used for any
generation this tick performs, the success flags of the database insert
and of the prune statement, and `Date.now()` as read inside
`cleanupOldPoems`. -/
structure TickEnv where
  api : APIResult
  writeOk : Bool
  pruneOk : Bool
  retentionHours : Int
  dbNowMs : Int
deriving Repr

/-- One firing of the `setInterval` body of `startPoemGenerator`
(src/server.js lines 329-369): prefetch at second 45; at second 0 of a
new minute promote the valid prefetch (copy it into `currentPoem`, save
it, clear `nextPoem`) or fall back to synchronous generation; at minute 0
additionally prune old rows. -/
def tick (env : TickEnv) (now : JSDate) (s : ServerState) : ServerState :=
  let currentMinute := now.minutes
  let currentSeconds := now.seconds
  let s1 :=
    if currentSeconds = 45 then
      { s with nextPoem := (prefetchNextMinute env.api now s.nextPoem).1 }
    else s
  if currentSeconds = 0 ∧ (currentMinute : Int) ≠ s1.currentPoem.minute then
    let s2 :=
      if s1.nextPoem.minute = (currentMinute : Int) ∧ s1.nextPoem.poem ≠ "" then
        { s1 with
          currentPoem := { timeString := s1.nextPoem.timeString
                           poem := s1.nextPoem.poem
                           timestamp := s1.nextPoem.timestamp
                           minute := (currentMinute : Int) }
          poems := savePoemToDatabase env.writeOk s1.nextPoem.timeString
                     s1.nextPoem.poem s1.nextPoem.timestamp s1.poems
          nextPoem := { poem := "", minute := -1, timeString := "", timestamp := 0 } }
      else
        generateAndCachePoem env.api env.writeOk now s1
    if currentMinute = 0 then
      { s2 with
        poems := (cleanupOldPoems env.pruneOk env.retentionHours env.dbNowMs s2.poems).store }
    else s2
  else s1

/-- Response of `GET /api/current-poem` (src/server.js lines 383-396):
either the 503 not-ready payload or the `{poem, timeString, timestamp}`
projection of `currentPoem`. -/
inductive CurrentPoemResponse where
  | notReady
  | ok (poem timeString : String) (timestamp : Int)
deriving DecidableEq, Repr

/-- The `GET /api/current-poem` handler: `!currentPoem.poem` (the falsy
check on the always-string field, i.e. emptiness) selects the 503. -/
def getCurrentPoem (c : CurrentSlot) : CurrentPoemResponse :=
  if c.poem = "" then .notReady
  else .ok c.poem c.timeString c.timestamp

/-- The module-level initial state (src/server.js lines 161-171):
both slots empty, and the table as found at start (empty here; the
startup claims do not depend on pre-existing rows). -/
def startupState : ServerState :=
  { currentPoem := { timeString := "", poem := "", timestamp := 0, minute := -1 }
    nextPoem := { poem := "", minute := -1, timeString := "", timestamp := 0 }
    poems := [] }

/-- Events observable between `app.listen` succeeding and steady state:
the initial `generateAndCachePoem(now)` promise resolving (its `fetch`
outcome and insert flag attached), or an external `GET /api/current-poem`
being handled.  Requests can be handled before the initial generation
resolves because the generation awaits the network while the HTTP server
is already accepting connections. -/
inductive StartupEvent where
  | genResolves (api : APIResult) (writeOk : Bool)
  | request
deriving Repr

/-- Effect of one startup event: the state afterwards and the response
produced, when the event is a request. -/
def stepStartup (date0 : JSDate) (s : ServerState) :
    StartupEvent → ServerState × Option CurrentPoemResponse
  | .genResolves api writeOk => (generateAndCachePoem api writeOk date0 s, none)
  | .request => (s, some (getCurrentPoem s.currentPoem))

/-- Run a sequence of startup events from a state, collecting the
responses served, in order. -/
def runStartup (date0 : JSDate) (s : ServerState) :
    List StartupEvent → ServerState × List CurrentPoemResponse
  | [] => (s, [])
  | e :: es =>
      let (s1, r) := stepStartup date0 s e
      let (s2, rs) := runStartup date0 s1 es
      (s2, (match r with | some x => [x] | none => []) ++ rs)

/-- The generation outcomes the code turns into the fallback: a rejected
fetch, a non-ok status, or missing/empty extracted content (`content || ''`
being empty makes the `!poem` check throw). -/
def isGenerationFailure : APIResult → Bool
  | .fetchError => true
  | .httpError _ => true
  | .success none => true
  | .success (some s) => s = ""

theorem jsTrim_of_all_whitespace (s : String) (h : ∀ c ∈ s.data, isJSWhitespace c) :
    jsTrim s = "" := by
  have h1 : s.data.dropWhile isJSWhitespace = [] :=
    List.dropWhile_eq_nil_iff.mpr fun c hc => h c hc
  show String.mk _ = ""
  rw [h1]
  rfl

theorem fallbackPoem_ne_empty (timeLabel : String) : fallbackPoem timeLabel ≠ "" := by
  intro h
  have : (fallbackPoem timeLabel).data = "".data := congrArg String.data h
  rw [fallbackPoem] at this
  simp [String.data_append] at this

/-- Claim C3: for every time label and failure outcome (network error,
non-2xx response, or missing/empty response content),
`generatePoemFromAPI` returns the fixed fallback string, which is
non-empty and contains the time label as a substring; no outcome makes it
throw outward (the embedding is a total function). -/
theorem generate_failure_returns_fallback (api : APIResult) (timeLabel : String)
    (h : isGenerationFailure api = true) :
    generatePoemFromAPI api timeLabel = fallbackPoem timeLabel ∧
    fallbackPoem timeLabel ≠ "" ∧
    ∃ pre post, fallbackPoem timeLabel = pre ++ (timeLabel ++ post) := by
  refine ⟨?_, fallbackPoem_ne_empty timeLabel,
    "At ", " the clock does chime,\nMarking moments, keeping time.", rfl⟩
  cases api with
  | fetchError => rfl
  | httpError status => rfl
  | success content =>
      cases content with
      | none => rfl
      | some s =>
          have hs : s = "" := by simpa [isGenerationFailure] using h
          simp [generatePoemFromAPI, hs]

/-- Witness for C3 at a concrete failed call. -/
theorem generate_failure_returns_fallback_witness :
    generatePoemFromAPI .fetchError "10:33 AM" = fallbackPoem "10:33 AM" ∧
    fallbackPoem "10:33 AM" ≠ "" := by
  obtain ⟨h1, h2, -⟩ := generate_failure_returns_fallback .fetchError "10:33 AM" rfl
  exact ⟨h1, h2⟩

/-- Claim C10: a 2xx response whose extracted content is non-empty but all
whitespace passes the `!poem` failure check (evaluated before trimming),
so `generatePoemFromAPI` returns the trimmed content — the empty string —
rather than the fallback, and a slot can hold empty text without any
generation failure. -/
theorem whitespace_content_yields_empty (s timeLabel : String)
    (hne : s ≠ "") (hws : ∀ c ∈ s.data, isJSWhitespace c) :
    generatePoemFromAPI (.success (some s)) timeLabel = "" ∧
    generatePoemFromAPI (.success (some s)) timeLabel ≠ fallbackPoem timeLabel ∧
    isGenerationFailure (.success (some s)) = false := by
  have ht : jsTrim s = "" := jsTrim_of_all_whitespace s hws
  have hgen : generatePoemFromAPI (.success (some s)) timeLabel = "" := by
    simp [generatePoemFromAPI, hne, ht]
  refine ⟨hgen, ?_, by simp [isGenerationFailure, hne]⟩
  rw [hgen]
  exact fun h => fallbackPoem_ne_empty timeLabel h.symm

/-- Witness for C10 at a single-space content string. -/
theorem whitespace_content_yields_empty_witness :
    generatePoemFromAPI (.success (some " ")) "10:33 AM" = "" :=
  (whitespace_content_yields_empty " " "10:33 AM" (by decide)
    (by intro c hc; simp at hc; simp [hc, isJSWhitespace])).1

/-- Claim C8: the current-poem query answers the 503 not-ready response
exactly when `currentPoem.poem` is empty, and otherwise returns the
`{poem, timeString, timestamp}` projection of the slot. -/
theorem current_poem_endpoint (c : CurrentSlot) :
    (getCurrentPoem c = .notReady ↔ c.poem = "") ∧
    (c.poem ≠ "" → getCurrentPoem c = .ok c.poem c.timeString c.timestamp) := by
  by_cases h : c.poem = "" <;> simp [getCurrentPoem, h]

/-- Witness for C8 on a populated and on an empty slot. -/
theorem current_poem_endpoint_witness :
    getCurrentPoem { timeString := "10:33 AM", poem := "a poem", timestamp := 5, minute := 33 }
      = .ok "a poem" "10:33 AM" 5 ∧
    getCurrentPoem { timeString := "", poem := "", timestamp := 0, minute := -1 }
      = .notReady :=
  ⟨(current_poem_endpoint _).2 (by decide),
   (current_poem_endpoint _).1.mpr rfl⟩

/-- Claim C5: after a successful prune, no record older than
`now - h*3600000` remains, and every record at or after the cutoff is
kept unchanged (the result is exactly the order-preserving filter of the
original table). -/
theorem prune_retention (retentionHours nowMs : Int) (store : List PoemRecord) :
    (∀ r ∈ (cleanupOldPoems true retentionHours nowMs store).store,
        ¬ (r.timestamp < nowMs - retentionHours * 3600000)) ∧
    (∀ r ∈ store, ¬ (r.timestamp < nowMs - retentionHours * 3600000) →
        r ∈ (cleanupOldPoems true retentionHours nowMs store).store) ∧
    (cleanupOldPoems true retentionHours nowMs store).store
      = store.filter (fun r => !decide (r.timestamp < nowMs - retentionHours * 3600000)) := by
  have hcut : nowMs - retentionHours * 60 * 60 * 1000
      = nowMs - retentionHours * 3600000 := by ring_nf
  refine ⟨?_, ?_, ?_⟩
  · intro r hr
    simp [cleanupOldPoems, hcut, List.mem_filter] at hr
    obtain ⟨-, h2⟩ := hr
    omega
  · intro r hr hts
    simp [cleanupOldPoems, hcut, List.mem_filter]
    exact ⟨hr, by omega⟩
  · simp [cleanupOldPoems, hcut]

/-- Witness for C5: pruning a two-row table at retention 24h removes the
old row and keeps the recent one untouched. -/
theorem prune_retention_witness :
    (∀ r ∈ (cleanupOldPoems true 24 100000000
        [{ timestamp := 0, time_string := "01:00 AM", poem := "old", model_used := "m" },
         { timestamp := 50000000, time_string := "02:00 PM", poem := "new", model_used := "m" }]).store,
      ¬ (r.timestamp < 100000000 - 24 * 3600000)) ∧
    (cleanupOldPoems true 24 100000000
        [{ timestamp := 0, time_string := "01:00 AM", poem := "old", model_used := "m" },
         { timestamp := 50000000, time_string := "02:00 PM", poem := "new", model_used := "m" }]).store
      = [{ timestamp := 50000000, time_string := "02:00 PM", poem := "new", model_used := "m" }] := by
  obtain ⟨h1, -, h3⟩ := prune_retention 24 100000000
    [{ timestamp := 0, time_string := "01:00 AM", poem := "old", model_used := "m" },
     { timestamp := 50000000, time_string := "02:00 PM", poem := "new", model_used := "m" }]
  exact ⟨h1, by rw [h3]; rfl⟩

theorem length_filter_add_length_filter_not (l : List PoemRecord) (p : PoemRecord → Bool) :
    (l.filter p).length + (l.filter (fun r => !p r)).length = l.length := by
  induction l with
  | nil => rfl
  | cons a l ih =>
      by_cases h : p a = true <;> simp [List.filter, h, Nat.succ_eq_add_one] <;> omega

/-- Claim C6 counterexample: at a concrete call deleting one row, the
function computes `result.changes = 1` but returns `undefined` (no
`return` statement), not the count of deleted rows. -/
theorem cleanup_does_not_return_count :
    (cleanupOldPoems true 24 100000000
      [{ timestamp := 0, time_string := "01:00 AM", poem := "old", model_used := "m" },
       { timestamp := 50000000, time_string := "02:00 PM", poem := "new", model_used := "m" }]).changes = 1 ∧
    (cleanupOldPoems true 24 100000000
      [{ timestamp := 0, time_string := "01:00 AM", poem := "old", model_used := "m" },
       { timestamp := 50000000, time_string := "02:00 PM", poem := "new", model_used := "m" }]).ret = none ∧
    (cleanupOldPoems true 24 100000000
      [{ timestamp := 0, time_string := "01:00 AM", poem := "old", model_used := "m" },
       { timestamp := 50000000, time_string := "02:00 PM", poem := "new", model_used := "m" }]).ret ≠ some 1 := by
  refine ⟨rfl, rfl, by simp [cleanupOldPoems]⟩

/-- Claim C6 amended: the prune operation reads the retention window from
the module-level integer configuration `POEM_RETENTION_HOURS`, computes
the count of deleted rows internally (for logging) — on success that
count plus the surviving rows equals the original table size — and
returns no value (`undefined`). -/
theorem cleanup_counts_but_returns_nothing (pruneOk : Bool) (retentionHours nowMs : Int)
    (store : List PoemRecord) :
    (cleanupOldPoems pruneOk retentionHours nowMs store).ret = none ∧
    (cleanupOldPoems true retentionHours nowMs store).changes
        + (cleanupOldPoems true retentionHours nowMs store).store.length
      = store.length := by
  constructor
  · cases pruneOk <;> rfl
  · simpa [cleanupOldPoems] using
      length_filter_add_length_filter_not store
        (fun r => decide (r.timestamp < nowMs - retentionHours * 60 * 60 * 1000))

/-- Claim C4: when `nextPoem` already holds the target minute, invoking
the prefetch routine twice makes no external generation call at all (in
particular at most one in total) and both invocations leave the slot
unchanged. -/
theorem prefetch_idempotent (api1 api2 : APIResult) (now : JSDate) (next : NextSlot)
    (h : next.minute = ((nextMinuteOf now).minutes : Int)) :
    prefetchNextMinute api1 now next = (next, false) ∧
    prefetchNextMinute api2 now (prefetchNextMinute api1 now next).1 = (next, false) := by
  have h1 : prefetchNextMinute api1 now next = (next, false) := by
    simp [prefetchNextMinute, h]
  exact ⟨h1, by rw [h1]; simp [prefetchNextMinute, h]⟩

/-- Witness for C4 at second 45 of minute 32: the slot already holds
minute 33 and both invocations are no-ops. -/
theorem prefetch_idempotent_witness :
    prefetchNextMinute .fetchError ⟨1920000, 10, 32, 45, 0⟩
        { poem := "a poem", minute := 33, timeString := "10:33 AM", timestamp := 1935000 }
      = ({ poem := "a poem", minute := 33, timeString := "10:33 AM", timestamp := 1935000 }, false) ∧
    prefetchNextMinute (.success (some "x")) ⟨1920000, 10, 32, 45, 0⟩
        (prefetchNextMinute .fetchError ⟨1920000, 10, 32, 45, 0⟩
          { poem := "a poem", minute := 33, timeString := "10:33 AM", timestamp := 1935000 }).1
      = ({ poem := "a poem", minute := 33, timeString := "10:33 AM", timestamp := 1935000 }, false) :=
  prefetch_idempotent .fetchError (.success (some "x")) ⟨1920000, 10, 32, 45, 0⟩
    { poem := "a poem", minute := 33, timeString := "10:33 AM", timestamp := 1935000 }
    (by decide)

/-- Claim C9: the database insert and prune success flags never influence
the in-memory slots: after any tick, `currentPoem` and `nextPoem` are
exactly what they would be had every write succeeded (failures are caught
and logged inside `savePoemToDatabase`/`cleanupOldPoems`, so the
scheduler also keeps running — the tick is a total function). -/
theorem persistence_failure_preserves_slots (env : TickEnv) (now : JSDate) (s : ServerState) :
    (tick env now s).currentPoem
        = (tick { env with writeOk := true, pruneOk := true } now s).currentPoem ∧
    (tick env now s).nextPoem
        = (tick { env with writeOk := true, pruneOk := true } now s).nextPoem := by
  simp only [tick, generateAndCachePoem, savePoemToDatabase]
  split_ifs <;> simp

/-- Claim C1: a boundary tick (second 0, new minute) with a valid
prefetch (matching minute, non-empty text) copies `nextPoem`'s label,
text and timestamp into `currentPoem`, appends exactly one record with
those fields (pruned afterwards only at the top of the hour), and resets
`nextPoem` to the empty state `minute = -1`. -/
theorem boundary_promotes_prefetch (env : TickEnv) (now : JSDate) (s : ServerState)
    (hsec : now.seconds = 0)
    (hnew : (now.minutes : Int) ≠ s.currentPoem.minute)
    (hmin : s.nextPoem.minute = (now.minutes : Int))
    (htxt : s.nextPoem.poem ≠ "")
    (hw : env.writeOk = true) :
    (tick env now s).currentPoem
      = { timeString := s.nextPoem.timeString, poem := s.nextPoem.poem,
          timestamp := s.nextPoem.timestamp, minute := (now.minutes : Int) } ∧
    (tick env now s).currentPoem.poem = s.nextPoem.poem ∧
    (tick env now s).nextPoem.minute = -1 ∧
    (tick env now s).nextPoem.poem = "" ∧
    (tick env now s).poems
      = (if now.minutes = 0 then
          (cleanupOldPoems env.pruneOk env.retentionHours env.dbNowMs
            (s.poems ++ [{ timestamp := s.nextPoem.timestamp,
                           time_string := s.nextPoem.timeString,
                           poem := s.nextPoem.poem,
                           model_used := OPENROUTER_MODEL }])).store
         else s.poems ++ [{ timestamp := s.nextPoem.timestamp,
                            time_string := s.nextPoem.timeString,
                            poem := s.nextPoem.poem,
                            model_used := OPENROUTER_MODEL }]) := by
  simp only [tick]
  rw [hsec]
  rw [if_neg (by decide : ¬ (0 : Nat) = 45)]
  rw [if_pos (show (0 : Nat) = 0 ∧ (now.minutes : Int) ≠ s.currentPoem.minute from ⟨rfl, hnew⟩)]
  rw [if_pos (show s.nextPoem.minute = (now.minutes : Int) ∧ s.nextPoem.poem ≠ ""
        from ⟨hmin, htxt⟩)]
  rw [hw]
  simp only [savePoemToDatabase, if_true]
  by_cases h0 : now.minutes = 0 <;> simp [h0]

/-- Witness for C1: promoting a prefetched 10:33 poem at 10:33:00. -/
theorem boundary_promotes_prefetch_witness :
    (tick ⟨.fetchError, true, true, 24, 1980000⟩ ⟨1980000, 10, 33, 0, 0⟩
        { currentPoem := { timeString := "10:32 AM", poem := "old", timestamp := 1920000, minute := 32 }
          nextPoem := { poem := "new poem", minute := 33, timeString := "10:33 AM", timestamp := 1980000 }
          poems := [] }).currentPoem.poem = "new poem" ∧
    (tick ⟨.fetchError, true, true, 24, 1980000⟩ ⟨1980000, 10, 33, 0, 0⟩
        { currentPoem := { timeString := "10:32 AM", poem := "old", timestamp := 1920000, minute := 32 }
          nextPoem := { poem := "new poem", minute := 33, timeString := "10:33 AM", timestamp := 1980000 }
          poems := [] }).nextPoem.minute = -1 ∧
    (tick ⟨.fetchError, true, true, 24, 1980000⟩ ⟨1980000, 10, 33, 0, 0⟩
        { currentPoem := { timeString := "10:32 AM", poem := "old", timestamp := 1920000, minute := 32 }
          nextPoem := { poem := "new poem", minute := 33, timeString := "10:33 AM", timestamp := 1980000 }
          poems := [] }).poems
      = [{ timestamp := 1980000, time_string := "10:33 AM", poem := "new poem",
           model_used := OPENROUTER_MODEL }] := by
  obtain ⟨h1, h2, h3, -, h5⟩ := boundary_promotes_prefetch
    ⟨.fetchError, true, true, 24, 1980000⟩ ⟨1980000, 10, 33, 0, 0⟩
    { currentPoem := { timeString := "10:32 AM", poem := "old", timestamp := 1920000, minute := 32 }
      nextPoem := { poem := "new poem", minute := 33, timeString := "10:33 AM", timestamp := 1980000 }
      poems := [] }
    rfl (by decide) rfl (by decide) rfl
  exact ⟨h2, h3, by rw [h5]; rfl⟩

/-- Claim C2: a boundary tick with no valid prefetch (minute mismatch or
empty text) synchronously regenerates `currentPoem` through the generator
for the current instant and appends exactly one record whose label is the
new minute's formatted time (pruned afterwards only at the top of the
hour); `nextPoem` is untouched. -/
theorem boundary_fallback_generates (env : TickEnv) (now : JSDate) (s : ServerState)
    (hsec : now.seconds = 0)
    (hnew : (now.minutes : Int) ≠ s.currentPoem.minute)
    (hinv : ¬ (s.nextPoem.minute = (now.minutes : Int) ∧ s.nextPoem.poem ≠ ""))
    (hw : env.writeOk = true) :
    (tick env now s).currentPoem
      = { timeString := formatTime now
          poem := generatePoemFromAPI env.api (formatTime now)
          timestamp := now.epochMs
          minute := (now.minutes : Int) } ∧
    (tick env now s).nextPoem = s.nextPoem ∧
    (tick env now s).poems
      = (if now.minutes = 0 then
          (cleanupOldPoems env.pruneOk env.retentionHours env.dbNowMs
            (s.poems ++ [{ timestamp := now.epochMs,
                           time_string := formatTime now,
                           poem := generatePoemFromAPI env.api (formatTime now),
                           model_used := OPENROUTER_MODEL }])).store
         else s.poems ++ [{ timestamp := now.epochMs,
                            time_string := formatTime now,
                            poem := generatePoemFromAPI env.api (formatTime now),
                            model_used := OPENROUTER_MODEL }]) := by
  simp only [tick]
  rw [hsec]
  rw [if_neg (by decide : ¬ (0 : Nat) = 45)]
  rw [if_pos (show (0 : Nat) = 0 ∧ (now.minutes : Int) ≠ s.currentPoem.minute from ⟨rfl, hnew⟩)]
  rw [if_neg hinv]
  simp only [generateAndCachePoem]
  rw [hw]
  simp only [savePoemToDatabase, if_true]
  by_cases h0 : now.minutes = 0 <;> simp [h0]

/-- Witness for C2: a cold boundary at 10:33:00 with an empty `nextPoem`
and a failing API call stores the fallback poem labelled `10:33 AM`. -/
theorem boundary_fallback_generates_witness :
    (tick ⟨.fetchError, true, true, 24, 1980000⟩ ⟨1980000, 10, 33, 0, 0⟩
        { currentPoem := { timeString := "10:32 AM", poem := "old", timestamp := 1920000, minute := 32 }
          nextPoem := { poem := "", minute := -1, timeString := "", timestamp := 0 }
          poems := [] }).currentPoem.poem = fallbackPoem "10:33 AM" ∧
    (tick ⟨.fetchError, true, true, 24, 1980000⟩ ⟨1980000, 10, 33, 0, 0⟩
        { currentPoem := { timeString := "10:32 AM", poem := "old", timestamp := 1920000, minute := 32 }
          nextPoem := { poem := "", minute := -1, timeString := "", timestamp := 0 }
          poems := [] }).poems
      = [{ timestamp := 1980000, time_string := "10:33 AM", poem := fallbackPoem "10:33 AM",
           model_used := OPENROUTER_MODEL }] := by
  obtain ⟨h1, -, h3⟩ := boundary_fallback_generates
    ⟨.fetchError, true, true, 24, 1980000⟩ ⟨1980000, 10, 33, 0, 0⟩
    { currentPoem := { timeString := "10:32 AM", poem := "old", timestamp := 1920000, minute := 32 }
      nextPoem := { poem := "", minute := -1, timeString := "", timestamp := 0 }
      poems := [] }
    rfl (by decide) (by decide) rfl
  exact ⟨by rw [h1]; rfl, by rw [h3]; rfl⟩

/-- Claim C7 counterexample: the HTTP server accepts requests while the
initial (asynchronous) generation is still in flight, so the first
current-poem query can be handled with `currentPoem` still empty and is
answered with the 503 not-ready response, not a poem. -/
theorem startup_read_can_precede_generation :
    (runStartup ⟨1927000, 10, 32, 7, 0⟩ startupState [StartupEvent.request]).2
      = [CurrentPoemResponse.notReady] ∧
    startupState.currentPoem.poem = "" := by
  exact ⟨rfl, rfl⟩

/-- Claim C7 amended: startup initiates a generation for the current
instant, but a query handled before it resolves gets the 503 not-ready
response; once the initial generation resolves with non-empty text,
queries are served that poem from `currentPoem`. -/
theorem startup_generation_then_read (d0 : JSDate) (api : APIResult) (writeOk : Bool)
    (h : generatePoemFromAPI api (formatTime d0) ≠ "") :
    (runStartup d0 startupState [StartupEvent.request]).2
      = [CurrentPoemResponse.notReady] ∧
    (runStartup d0 startupState [StartupEvent.genResolves api writeOk, StartupEvent.request]).2
      = [CurrentPoemResponse.ok (generatePoemFromAPI api (formatTime d0))
          (formatTime d0) d0.epochMs] := by
  refine ⟨rfl, ?_⟩
  simp [runStartup, stepStartup, generateAndCachePoem, getCurrentPoem, startupState, h]

/-- Witness for C7's amended statement at 10:32:07 with a failing API
call: the pre-resolution query gets 503, the post-resolution query gets
the fallback poem. -/
theorem startup_generation_then_read_witness :
    (runStartup ⟨1927000, 10, 32, 7, 0⟩ startupState [StartupEvent.request]).2
      = [CurrentPoemResponse.notReady] ∧
    (runStartup ⟨1927000, 10, 32, 7, 0⟩ startupState
        [StartupEvent.genResolves .fetchError true, StartupEvent.request]).2
      = [CurrentPoemResponse.ok (generatePoemFromAPI .fetchError (formatTime ⟨1927000, 10, 32, 7, 0⟩))
          (formatTime ⟨1927000, 10, 32, 7, 0⟩) 1927000] :=
  startup_generation_then_read ⟨1927000, 10, 32, 7, 0⟩ .fetchError true (by decide)

end PoemClock
